import Mathlib

/-!
Shallow embedding of the furnace Go SDK plugin layer (src/sdk.go, package sdk).

The repository defines four lifecycle hook interfaces (PreCreate, PostCreate,
PreDelete, PostDelete) together with gRPC client/server adapter pairs and the
transport-binding glue of the go-plugin library.  We model the gRPC world
explicitly:

  - a generated remote stub is a state-passing function that, given a context,
    a request message and a world state, either fails with a transport error
    or returns the response message, together with the new world state;
  - a Go value of type (T, error) becomes T x Option GError, with a nil error
    modelled as Option.none;
  - a hook implementation that may have side effects is a state transformer
    on an arbitrary state type;
  - a method on a pointer receiver additionally returns the receiver, so that
    frame properties about the receiver are expressible; the bodies below
    return the receiver unchanged exactly because the Go bodies never assign
    to any field of the receiver.
-/

/-- Transport errors as produced by Go gRPC calls; the payload is irrelevant
to this layer, only nil / non-nil matters. -/
abbrev GError := String

/-- Go context.Context; the code in src/sdk.go only ever passes
context.Background(). -/
def Context : Type := Unit

/-- Go context.Background(). -/
def Context.background : Context := ()

namespace proto

/-- The request message, proto.Stack: a single string field Name carrying
the stack identifier. -/
structure Stack where
  Name : String
deriving DecidableEq

/-- The pre-hook response message, proto.Proceed: a single boolean field
Failed. -/
structure Proceed where
  Failed : Bool
deriving DecidableEq

/-- The post-hook response message, proto.Empty: no fields. -/
structure Empty where
deriving DecidableEq

end proto

/-
Hook interfaces (src/sdk.go lines 137-159).  A Go implementation of such an
interface may close over mutable state; we model an implementation as a state
transformer over an arbitrary state type.
-/

/-- PreCreate hook interface (src/sdk.go lines 137-139): Execute receives the
stack name and returns the abort decision; side effects of an implementation
are explicit state passing over a state type. -/
abbrev PreCreate (σ : Type) : Type := String → σ → Bool × σ

/-- PostCreate hook interface (src/sdk.go lines 144-146): Execute receives the
stack name and returns nothing; only the state changes. -/
abbrev PostCreate (σ : Type) : Type := String → σ → σ

/-- PreDelete hook interface (src/sdk.go lines 150-152). -/
abbrev PreDelete (σ : Type) : Type := String → σ → Bool × σ

/-- PostDelete hook interface (src/sdk.go lines 157-159). -/
abbrev PostDelete (σ : Type) : Type := String → σ → σ

/-
Generated client stub types (from the external furnace proto package): one
remote-callable method per hook kind, each taking a context and a Stack and
returning the response message or a transport error, threading a world state.
-/

/-- Generated stub interface proto.PreCreateClient. -/
abbrev ProtoPreCreateClient (σ : Type) : Type :=
  Context → proto.Stack → σ → (Except GError proto.Proceed) × σ

/-- Generated stub interface proto.PostCreateClient. -/
abbrev ProtoPostCreateClient (σ : Type) : Type :=
  Context → proto.Stack → σ → (Except GError proto.Empty) × σ

/-- Generated stub interface proto.PreDeleteClient. -/
abbrev ProtoPreDeleteClient (σ : Type) : Type :=
  Context → proto.Stack → σ → (Except GError proto.Proceed) × σ

/-- Generated stub interface proto.PostDeleteClient. -/
abbrev ProtoPostDeleteClient (σ : Type) : Type :=
  Context → proto.Stack → σ → (Except GError proto.Empty) × σ

/-
Client adapters.
-/

/-- GRPCPreCreateClient (src/sdk.go line 190): holds the remote stub. -/
structure GRPCPreCreateClient (σ : Type) where
  client : ProtoPreCreateClient σ

/-- Execute of GRPCPreCreateClient (src/sdk.go lines 194-202): build the
request from the key, issue the remote call, return false on a transport
error and the Failed field of the response otherwise.  The receiver is
returned unchanged because the Go body never writes to it. -/
def GRPCPreCreateClient.Execute {σ : Type} (m : GRPCPreCreateClient σ)
    (key : String) (st : σ) : Bool × GRPCPreCreateClient σ × σ :=
  let (p, st') := m.client Context.background { Name := key } st
  match p with
  | Except.error _ => (false, m, st')
  | Except.ok p => (p.Failed, m, st')

/-- GRPCPostCreateClient (src/sdk.go line 233). -/
structure GRPCPostCreateClient (σ : Type) where
  client : ProtoPostCreateClient σ

/-- Execute of GRPCPostCreateClient (src/sdk.go lines 237-241): issue the
remote call and discard both the response and the error; the Go method
returns nothing. -/
def GRPCPostCreateClient.Execute {σ : Type} (m : GRPCPostCreateClient σ)
    (stackname : String) (st : σ) : Unit × GRPCPostCreateClient σ × σ :=
  let (_, st') := m.client Context.background { Name := stackname } st
  ((), m, st')

/-- GRPCPreDeleteClient (src/sdk.go line 298). -/
structure GRPCPreDeleteClient (σ : Type) where
  client : ProtoPreDeleteClient σ

/-- Execute of GRPCPreDeleteClient (src/sdk.go lines 302-310): same shape as
the PreCreate client. -/
def GRPCPreDeleteClient.Execute {σ : Type} (m : GRPCPreDeleteClient σ)
    (key : String) (st : σ) : Bool × GRPCPreDeleteClient σ × σ :=
  let (p, st') := m.client Context.background { Name := key } st
  match p with
  | Except.error _ => (false, m, st')
  | Except.ok p => (p.Failed, m, st')

/-- GRPCPostDeleteClient (src/sdk.go line 341). -/
structure GRPCPostDeleteClient (σ : Type) where
  client : ProtoPostDeleteClient σ

/-- Execute of GRPCPostDeleteClient (src/sdk.go lines 345-349): issue the
remote call and discard both the response and the error. -/
def GRPCPostDeleteClient.Execute {σ : Type} (m : GRPCPostDeleteClient σ)
    (stackname : String) (st : σ) : Unit × GRPCPostDeleteClient σ × σ :=
  let (_, st') := m.client Context.background { Name := stackname } st
  ((), m, st')

/-
Server adapters.
-/

/-- GRPCPreCreateServer (src/sdk.go lines 205-208): wraps the real
implementation. -/
structure GRPCPreCreateServer (σ : Type) where
  Impl : PreCreate σ

/-- Execute of GRPCPreCreateServer (src/sdk.go lines 212-215): call the
implementation on req.Name, wrap the boolean in a Proceed, return a nil
error. -/
def GRPCPreCreateServer.Execute {σ : Type} (m : GRPCPreCreateServer σ)
    (_ctx : Context) (req : proto.Stack) (st : σ) :
    (proto.Proceed × Option GError) × σ :=
  let (res, st') := m.Impl req.Name st
  (({ Failed := res }, none), st')

/-- GRPCPostCreateServer (src/sdk.go lines 244-247). -/
structure GRPCPostCreateServer (σ : Type) where
  Impl : PostCreate σ

/-- Execute of GRPCPostCreateServer (src/sdk.go lines 264-267): call the
implementation on req.Name, return an Empty response and a nil error. -/
def GRPCPostCreateServer.Execute {σ : Type} (m : GRPCPostCreateServer σ)
    (_ctx : Context) (req : proto.Stack) (st : σ) :
    (proto.Empty × Option GError) × σ :=
  ((proto.Empty.mk, none), m.Impl req.Name st)

/-- GRPCPreDeleteServer (src/sdk.go lines 313-316). -/
structure GRPCPreDeleteServer (σ : Type) where
  Impl : PreDelete σ

/-- Execute of GRPCPreDeleteServer (src/sdk.go lines 320-323). -/
def GRPCPreDeleteServer.Execute {σ : Type} (m : GRPCPreDeleteServer σ)
    (_ctx : Context) (req : proto.Stack) (st : σ) :
    (proto.Proceed × Option GError) × σ :=
  let (res, st') := m.Impl req.Name st
  (({ Failed := res }, none), st')

/-- GRPCPostDeleteServer (src/sdk.go lines 352-355). -/
structure GRPCPostDeleteServer (σ : Type) where
  Impl : PostDelete σ

/-- Execute of GRPCPostDeleteServer (src/sdk.go lines 372-375). -/
def GRPCPostDeleteServer.Execute {σ : Type} (m : GRPCPostDeleteServer σ)
    (_ctx : Context) (req : proto.Stack) (st : σ) :
    (proto.Empty × Option GError) × σ :=
  ((proto.Empty.mk, none), m.Impl req.Name st)

/-
Transport-binding glue: the go-plugin broker, the grpc.Server as a
registration table, the grpc.ClientConn as a bundle of remote stubs, and the
generated registration / client-construction functions.
-/

/-- The go-plugin GRPCBroker handle; unused by this layer. -/
def GRPCBroker : Type := Unit

/-- A grpc.Server, modelled as the table of service implementations
registered on it, one list per generated Register function used in
src/sdk.go. -/
structure GrpcServer (σ : Type) where
  preCreateHandlers : List (GRPCPreCreateServer σ)
  postCreateHandlers : List (GRPCPostCreateServer σ)
  preDeleteHandlers : List (GRPCPreDeleteServer σ)
  postDeleteHandlers : List (GRPCPostDeleteServer σ)

/-- A grpc.ClientConn, modelled as one remote stub per service reachable
through the connection; the generated NewXClient constructors select the
corresponding stub. -/
structure ClientConn (σ : Type) where
  preCreate : ProtoPreCreateClient σ
  postCreate : ProtoPostCreateClient σ
  preDelete : ProtoPreDeleteClient σ
  postDelete : ProtoPostDeleteClient σ

namespace proto

/-- Generated proto.RegisterPreCreateServer: record the server implementation
on the grpc.Server. -/
def RegisterPreCreateServer {σ : Type} (s : GrpcServer σ)
    (srv : GRPCPreCreateServer σ) : GrpcServer σ :=
  { s with preCreateHandlers := s.preCreateHandlers ++ [srv] }

/-- Generated proto.RegisterPostCreateServer. -/
def RegisterPostCreateServer {σ : Type} (s : GrpcServer σ)
    (srv : GRPCPostCreateServer σ) : GrpcServer σ :=
  { s with postCreateHandlers := s.postCreateHandlers ++ [srv] }

/-- Generated proto.RegisterPreDeleteServer. -/
def RegisterPreDeleteServer {σ : Type} (s : GrpcServer σ)
    (srv : GRPCPreDeleteServer σ) : GrpcServer σ :=
  { s with preDeleteHandlers := s.preDeleteHandlers ++ [srv] }

/-- Generated proto.RegisterPostDeleteServer. -/
def RegisterPostDeleteServer {σ : Type} (s : GrpcServer σ)
    (srv : GRPCPostDeleteServer σ) : GrpcServer σ :=
  { s with postDeleteHandlers := s.postDeleteHandlers ++ [srv] }

/-- Generated proto.NewPreCreateClient: the PreCreate stub of the
connection. -/
def NewPreCreateClient {σ : Type} (c : ClientConn σ) : ProtoPreCreateClient σ :=
  c.preCreate

/-- Generated proto.NewPostCreateClient. -/
def NewPostCreateClient {σ : Type} (c : ClientConn σ) : ProtoPostCreateClient σ :=
  c.postCreate

/-- Generated proto.NewPreDeleteClient. -/
def NewPreDeleteClient {σ : Type} (c : ClientConn σ) : ProtoPreDeleteClient σ :=
  c.preDelete

/-- Generated proto.NewPostDeleteClient. -/
def NewPostDeleteClient {σ : Type} (c : ClientConn σ) : ProtoPostDeleteClient σ :=
  c.postDelete

end proto

/-- PreCreateGRPCPlugin (src/sdk.go lines 168-174): carries the concrete
implementation. -/
structure PreCreateGRPCPlugin (σ : Type) where
  Impl : PreCreate σ

/-- GRPCServer of PreCreateGRPCPlugin (src/sdk.go lines 178-181): register a
server adapter wrapping the implementation, return a nil error. -/
def PreCreateGRPCPlugin.GRPCServer {σ : Type} (p : PreCreateGRPCPlugin σ)
    (_broker : GRPCBroker) (s : GrpcServer σ) : GrpcServer σ × Option GError :=
  (proto.RegisterPreCreateServer s { Impl := p.Impl }, none)

/-- GRPCClient of PreCreateGRPCPlugin (src/sdk.go lines 185-187): wrap the
connection in a client adapter, return a nil error.  Go returns the adapter
as an interface value; we return it at its concrete type. -/
def PreCreateGRPCPlugin.GRPCClient {σ τ : Type} (_p : PreCreateGRPCPlugin σ)
    (_ctx : Context) (_broker : GRPCBroker) (c : ClientConn τ) :
    GRPCPreCreateClient τ × Option GError :=
  ({ client := proto.NewPreCreateClient c }, none)

/-- PostCreateGRPCPlugin (src/sdk.go lines 224-230). -/
structure PostCreateGRPCPlugin (σ : Type) where
  Impl : PostCreate σ

/-- GRPCServer of PostCreateGRPCPlugin (src/sdk.go lines 251-254). -/
def PostCreateGRPCPlugin.GRPCServer {σ : Type} (p : PostCreateGRPCPlugin σ)
    (_broker : GRPCBroker) (s : GrpcServer σ) : GrpcServer σ × Option GError :=
  (proto.RegisterPostCreateServer s { Impl := p.Impl }, none)

/-- GRPCClient of PostCreateGRPCPlugin (src/sdk.go lines 258-260). -/
def PostCreateGRPCPlugin.GRPCClient {σ τ : Type} (_p : PostCreateGRPCPlugin σ)
    (_ctx : Context) (_broker : GRPCBroker) (c : ClientConn τ) :
    GRPCPostCreateClient τ × Option GError :=
  ({ client := proto.NewPostCreateClient c }, none)

/-- PreDeleteGRPCPlugin (src/sdk.go lines 276-282). -/
structure PreDeleteGRPCPlugin (σ : Type) where
  Impl : PreDelete σ

/-- GRPCServer of PreDeleteGRPCPlugin (src/sdk.go lines 286-289). -/
def PreDeleteGRPCPlugin.GRPCServer {σ : Type} (p : PreDeleteGRPCPlugin σ)
    (_broker : GRPCBroker) (s : GrpcServer σ) : GrpcServer σ × Option GError :=
  (proto.RegisterPreDeleteServer s { Impl := p.Impl }, none)

/-- GRPCClient of PreDeleteGRPCPlugin (src/sdk.go lines 293-295). -/
def PreDeleteGRPCPlugin.GRPCClient {σ τ : Type} (_p : PreDeleteGRPCPlugin σ)
    (_ctx : Context) (_broker : GRPCBroker) (c : ClientConn τ) :
    GRPCPreDeleteClient τ × Option GError :=
  ({ client := proto.NewPreDeleteClient c }, none)

/-- PostDeleteGRPCPlugin (src/sdk.go lines 332-338). -/
structure PostDeleteGRPCPlugin (σ : Type) where
  Impl : PostDelete σ

/-- GRPCServer of PostDeleteGRPCPlugin (src/sdk.go lines 359-362). -/
def PostDeleteGRPCPlugin.GRPCServer {σ : Type} (p : PostDeleteGRPCPlugin σ)
    (_broker : GRPCBroker) (s : GrpcServer σ) : GrpcServer σ × Option GError :=
  (proto.RegisterPostDeleteServer s { Impl := p.Impl }, none)

/-- GRPCClient of PostDeleteGRPCPlugin (src/sdk.go lines 366-368). -/
def PostDeleteGRPCPlugin.GRPCClient {σ τ : Type} (_p : PostDeleteGRPCPlugin σ)
    (_ctx : Context) (_broker : GRPCBroker) (c : ClientConn τ) :
    GRPCPostDeleteClient τ × Option GError :=
  ({ client := proto.NewPostDeleteClient c }, none)

/-
Auxiliary definitions used to state the claims.
-/

/-- Client-side request construction, as written inline in each client
adapter Execute (e.g. src/sdk.go lines 195-197). -/
def clientRequest (key : String) : proto.Stack := { Name := key }

/-- Server-side extraction of the stack identifier from the request, as in
each server handler (req.Name, e.g. src/sdk.go line 213). -/
def serverName (req : proto.Stack) : String := req.Name

/-- A stateless pre-hook implementation lifted into state-passing form. -/
def pureImpl (f : String → Bool) : PreCreate Unit :=
  fun s st => (f s, st)

/-- A pre-hook implementation instrumented to record every invocation: the
state is the list of names it has been called with, in order. -/
def tracedPre (g : String → Bool) : PreCreate (List String) :=
  fun name tr => (g name, tr ++ [name])

/-- A post-hook implementation instrumented to record every invocation. -/
def tracedPost : PostCreate (List String) :=
  fun name tr => tr ++ [name]

/-- Following the spec wording: a faithful (error-free, message-preserving)
transport turns a server handler into a client stub by delivering the request
unchanged and mapping a nil-error reply to a successful stub result. -/
def faithfulStub {σ α : Type}
    (handler : Context → proto.Stack → σ → (α × Option GError) × σ) :
    Context → proto.Stack → σ → (Except GError α) × σ :=
  fun ctx req st =>
    let ((resp, err), st') := handler ctx req st
    match err with
    | none => (Except.ok resp, st')
    | some e => (Except.error e, st')

/-- The PreCreate client adapter wired to a server adapter over the faithful
transport, for a stateless local implementation. -/
def composedPreCreateClient (f : String → Bool) : GRPCPreCreateClient Unit :=
  { client := faithfulStub (GRPCPreCreateServer.Execute { Impl := pureImpl f }) }

/-- The PostDelete client adapter wired to a server adapter over the faithful
transport, for an effectful local implementation. -/
def composedPostDeleteClient {σ : Type} (impl : PostDelete σ) :
    GRPCPostDeleteClient σ :=
  { client := faithfulStub (GRPCPostDeleteServer.Execute { Impl := impl }) }

/-
Claims.
-/

/-- C1: for every stack identifier, when the remote call made by a PreCreate
or PreDelete client adapter Execute succeeds, Execute returns exactly the
Failed field of the response: true when the response has Failed = true and
false when it has Failed = false. -/
theorem preClient_returns_failed_field :
    (∀ (σ : Type) (m : GRPCPreCreateClient σ) (key : String) (st : σ)
        (p : proto.Proceed) (st' : σ),
      m.client Context.background (proto.Stack.mk key) st = (Except.ok p, st') →
      (m.Execute key st).1 = p.Failed) ∧
    (∀ (σ : Type) (m : GRPCPreDeleteClient σ) (key : String) (st : σ)
        (p : proto.Proceed) (st' : σ),
      m.client Context.background (proto.Stack.mk key) st = (Except.ok p, st') →
      (m.Execute key st).1 = p.Failed) := by
  constructor <;> intro σ m key st p st' h <;>
    simp [GRPCPreCreateClient.Execute, GRPCPreDeleteClient.Execute, h]

/-- Witness for C1: concrete stubs answering Failed = true and Failed = false
make Execute return true and false respectively, for both adapters. -/
theorem preClient_returns_failed_field_witness :
    ((GRPCPreCreateClient.mk (σ := Unit)
        (fun _ _ st => (Except.ok (proto.Proceed.mk true), st))).client
        Context.background (proto.Stack.mk "prod-stack-1") ()
        = (Except.ok (proto.Proceed.mk true), ())
      ∧ ((GRPCPreCreateClient.mk (σ := Unit)
        (fun _ _ st => (Except.ok (proto.Proceed.mk true), st))).Execute
        "prod-stack-1" ()).1 = true) ∧
    ((GRPCPreDeleteClient.mk (σ := Unit)
        (fun _ _ st => (Except.ok (proto.Proceed.mk false), st))).client
        Context.background (proto.Stack.mk "prod-stack-1") ()
        = (Except.ok (proto.Proceed.mk false), ())
      ∧ ((GRPCPreDeleteClient.mk (σ := Unit)
        (fun _ _ st => (Except.ok (proto.Proceed.mk false), st))).Execute
        "prod-stack-1" ()).1 = false) :=
  ⟨⟨rfl, preClient_returns_failed_field.1 Unit
      (GRPCPreCreateClient.mk (fun _ _ st => (Except.ok (proto.Proceed.mk true), st)))
      "prod-stack-1" () (proto.Proceed.mk true) () rfl⟩,
   ⟨rfl, preClient_returns_failed_field.2 Unit
      (GRPCPreDeleteClient.mk (fun _ _ st => (Except.ok (proto.Proceed.mk false), st)))
      "prod-stack-1" () (proto.Proceed.mk false) () rfl⟩⟩

/-- C2: for every stack identifier, if the remote call made by a PreCreate or
PreDelete client adapter Execute fails with a transport error, Execute
returns false and no error reaches the caller (the return type has no error
channel at all). -/
theorem preClient_fail_open_on_transport_error :
    (∀ (σ : Type) (m : GRPCPreCreateClient σ) (key : String) (st : σ)
        (e : GError) (st' : σ),
      m.client Context.background (proto.Stack.mk key) st = (Except.error e, st') →
      (m.Execute key st).1 = false) ∧
    (∀ (σ : Type) (m : GRPCPreDeleteClient σ) (key : String) (st : σ)
        (e : GError) (st' : σ),
      m.client Context.background (proto.Stack.mk key) st = (Except.error e, st') →
      (m.Execute key st).1 = false) := by
  constructor <;> intro σ m key st e st' h <;>
    simp [GRPCPreCreateClient.Execute, GRPCPreDeleteClient.Execute, h]

/-- Witness for C2: a stub that always fails with a connection error makes
Execute return false, for both adapters. -/
theorem preClient_fail_open_on_transport_error_witness :
    ((GRPCPreCreateClient.mk (σ := Unit)
        (fun _ _ st => (Except.error "connection refused", st))).client
        Context.background (proto.Stack.mk "prod-stack-1") ()
        = (Except.error "connection refused", ())
      ∧ ((GRPCPreCreateClient.mk (σ := Unit)
        (fun _ _ st => (Except.error "connection refused", st))).Execute
        "prod-stack-1" ()).1 = false) ∧
    ((GRPCPreDeleteClient.mk (σ := Unit)
        (fun _ _ st => (Except.error "connection refused", st))).client
        Context.background (proto.Stack.mk "prod-stack-1") ()
        = (Except.error "connection refused", ())
      ∧ ((GRPCPreDeleteClient.mk (σ := Unit)
        (fun _ _ st => (Except.error "connection refused", st))).Execute
        "prod-stack-1" ()).1 = false) :=
  ⟨⟨rfl, preClient_fail_open_on_transport_error.1 Unit
      (GRPCPreCreateClient.mk (fun _ _ st => (Except.error "connection refused", st)))
      "prod-stack-1" () "connection refused" () rfl⟩,
   ⟨rfl, preClient_fail_open_on_transport_error.2 Unit
      (GRPCPreDeleteClient.mk (fun _ _ st => (Except.error "connection refused", st)))
      "prod-stack-1" () "connection refused" () rfl⟩⟩

/-- C3: for every stack identifier, a PostCreate or PostDelete client adapter
Execute returns unit whatever the remote call does: the full result is the
unit value, the unchanged adapter, and the post-call world state, with the
transport error of the call discarded. -/
theorem postClient_returns_unit_discards_error :
    (∀ (σ : Type) (m : GRPCPostCreateClient σ) (s : String) (st : σ),
      m.Execute s st
        = ((), m, (m.client Context.background (proto.Stack.mk s) st).2)) ∧
    (∀ (σ : Type) (m : GRPCPostDeleteClient σ) (s : String) (st : σ),
      m.Execute s st
        = ((), m, (m.client Context.background (proto.Stack.mk s) st).2)) := by
  refine ⟨fun σ m s st => ?_, fun σ m s st => ?_⟩ <;>
  · rcases h : m.client Context.background (proto.Stack.mk s) st with ⟨r, st'⟩
    simp [GRPCPostCreateClient.Execute, GRPCPostDeleteClient.Execute, h]

/-- C4: each of the four server handlers invokes the wrapped implementation
exactly once, on the request Name unchanged, and the pre-hook handlers copy
the boolean result unchanged into the Failed field of the response.  Stated
first as an equation for an arbitrary implementation (the handler result is
exactly one application of the implementation at req.Name), then for
trace-instrumented implementations whose state records every invocation. -/
theorem server_invokes_impl_once :
    (∀ (σ : Type) (f : PreCreate σ) (ctx : Context) (req : proto.Stack) (st : σ),
      GRPCPreCreateServer.Execute { Impl := f } ctx req st
        = (({ Failed := (f req.Name st).1 }, none), (f req.Name st).2)) ∧
    (∀ (σ : Type) (f : PreDelete σ) (ctx : Context) (req : proto.Stack) (st : σ),
      GRPCPreDeleteServer.Execute { Impl := f } ctx req st
        = (({ Failed := (f req.Name st).1 }, none), (f req.Name st).2)) ∧
    (∀ (σ : Type) (f : PostCreate σ) (ctx : Context) (req : proto.Stack) (st : σ),
      GRPCPostCreateServer.Execute { Impl := f } ctx req st
        = ((proto.Empty.mk, none), f req.Name st)) ∧
    (∀ (σ : Type) (f : PostDelete σ) (ctx : Context) (req : proto.Stack) (st : σ),
      GRPCPostDeleteServer.Execute { Impl := f } ctx req st
        = ((proto.Empty.mk, none), f req.Name st)) ∧
    (∀ (g : String → Bool) (ctx : Context) (req : proto.Stack) (tr : List String),
      (GRPCPreCreateServer.Execute { Impl := tracedPre g } ctx req tr).2
        = tr ++ [req.Name]) ∧
    (∀ (g : String → Bool) (ctx : Context) (req : proto.Stack) (tr : List String),
      (GRPCPreDeleteServer.Execute { Impl := tracedPre g } ctx req tr).2
        = tr ++ [req.Name]) ∧
    (∀ (ctx : Context) (req : proto.Stack) (tr : List String),
      (GRPCPostCreateServer.Execute { Impl := tracedPost } ctx req tr).2
        = tr ++ [req.Name]) ∧
    (∀ (ctx : Context) (req : proto.Stack) (tr : List String),
      (GRPCPostDeleteServer.Execute { Impl := tracedPost } ctx req tr).2
        = tr ++ [req.Name]) := by
  refine ⟨fun σ f ctx req st => ?_, fun σ f ctx req st => ?_,
    fun σ f ctx req st => rfl, fun σ f ctx req st => rfl,
    fun g ctx req tr => rfl, fun g ctx req tr => rfl,
    fun ctx req tr => rfl, fun ctx req tr => rfl⟩ <;>
  · rcases h : f req.Name st with ⟨res, st'⟩
    simp [GRPCPreCreateServer.Execute, GRPCPreDeleteServer.Execute, h]

/-- C5: the composition of client-side request construction and server-side
name extraction is the identity on strings, for every string including the
empty string and strings with non-ASCII content. -/
theorem request_roundtrip_identity :
    ∀ s : String, serverName (clientRequest s) = s :=
  fun _ => rfl

/-- C6: composing the PreCreate client adapter with the server adapter over a
faithful transport yields the local implementation; in particular a local
implementation returning true for the identifier prod-stack-1 makes the
client-side Execute of prod-stack-1 return true. -/
theorem precreate_compose_equals_local :
    (∀ (f : String → Bool) (s : String),
      ((composedPreCreateClient f).Execute s ()).1 = f s) ∧
    (∀ f : String → Bool, f "prod-stack-1" = true →
      ((composedPreCreateClient f).Execute "prod-stack-1" ()).1 = true) := by
  constructor
  · intro f s
    rfl
  · intro f h
    show ((composedPreCreateClient f).Execute "prod-stack-1" ()).1 = true
    calc ((composedPreCreateClient f).Execute "prod-stack-1" ()).1
        = f "prod-stack-1" := rfl
      _ = true := h

/-- Witness for C6: with the local implementation that answers true exactly
on prod-stack-1, the client-side Execute of prod-stack-1 returns true. -/
theorem precreate_compose_equals_local_witness :
    ((fun s => s == "prod-stack-1") "prod-stack-1" = true) ∧
    ((composedPreCreateClient (fun s => s == "prod-stack-1")).Execute
      "prod-stack-1" ()).1 = true :=
  ⟨rfl, precreate_compose_equals_local.2 (fun s => s == "prod-stack-1") rfl⟩

/-- C7: one client-side PostDelete Execute call with identifier prod-stack-1
over a faithful transport applies the local implementation side effect
exactly once and returns unit: in general the final state is one application
of the implementation, and for a counter-incrementing implementation started
at 0 the counter afterwards equals 1. -/
theorem postdelete_compose_side_effect_once :
    (∀ (σ : Type) (impl : PostDelete σ) (st : σ),
      (composedPostDeleteClient impl).Execute "prod-stack-1" st
        = ((), composedPostDeleteClient impl, impl "prod-stack-1" st)) ∧
    ((composedPostDeleteClient (fun _ n => n + 1)).Execute
        "prod-stack-1" (0 : Nat)).2.2 = 1 ∧
    ((composedPostDeleteClient (fun _ n => n + 1)).Execute
        "prod-stack-1" (0 : Nat)).1 = () :=
  ⟨fun _ _ _ => rfl, rfl, rfl⟩

/-- C8: every server handler returns a nil error alongside the response, for
every request, state and wrapped implementation. -/
theorem server_handler_never_errors :
    (∀ (σ : Type) (m : GRPCPreCreateServer σ) (ctx : Context)
        (req : proto.Stack) (st : σ),
      (m.Execute ctx req st).1.2 = none) ∧
    (∀ (σ : Type) (m : GRPCPostCreateServer σ) (ctx : Context)
        (req : proto.Stack) (st : σ),
      (m.Execute ctx req st).1.2 = none) ∧
    (∀ (σ : Type) (m : GRPCPreDeleteServer σ) (ctx : Context)
        (req : proto.Stack) (st : σ),
      (m.Execute ctx req st).1.2 = none) ∧
    (∀ (σ : Type) (m : GRPCPostDeleteServer σ) (ctx : Context)
        (req : proto.Stack) (st : σ),
      (m.Execute ctx req st).1.2 = none) := by
  refine ⟨fun σ m ctx req st => ?_, fun σ m ctx req st => rfl,
    fun σ m ctx req st => ?_, fun σ m ctx req st => rfl⟩ <;>
  · rcases h : m.Impl req.Name st with ⟨res, st'⟩
    simp [GRPCPreCreateServer.Execute, GRPCPreDeleteServer.Execute, h]

/-- C9: every client adapter Execute leaves the adapter itself unchanged: the
receiver component of the result is the adapter it was called on, so the
stored remote-endpoint handle is the same before and after each call. -/
theorem client_execute_preserves_adapter :
    (∀ (σ : Type) (m : GRPCPreCreateClient σ) (key : String) (st : σ),
      (m.Execute key st).2.1 = m) ∧
    (∀ (σ : Type) (m : GRPCPostCreateClient σ) (key : String) (st : σ),
      (m.Execute key st).2.1 = m) ∧
    (∀ (σ : Type) (m : GRPCPreDeleteClient σ) (key : String) (st : σ),
      (m.Execute key st).2.1 = m) ∧
    (∀ (σ : Type) (m : GRPCPostDeleteClient σ) (key : String) (st : σ),
      (m.Execute key st).2.1 = m) := by
  refine ⟨fun σ m key st => ?_, fun σ m key st => ?_,
    fun σ m key st => ?_, fun σ m key st => ?_⟩ <;>
  · rcases h : m.client Context.background { Name := key } st with ⟨r, st'⟩
    first
    | (cases r <;>
        simp [GRPCPreCreateClient.Execute, GRPCPreDeleteClient.Execute, h])
    | simp [GRPCPostCreateClient.Execute, GRPCPostDeleteClient.Execute, h]

/-- C10: the transport-binding methods of all four plugin structs never fail:
GRPCServer registers the server adapter wrapping the plugin implementation on
the given grpc server and returns a nil error, and GRPCClient returns a
client adapter wrapping the corresponding stub of the given connection
together with a nil error. -/
theorem plugin_bindings_never_fail :
    (∀ (σ : Type) (p : PreCreateGRPCPlugin σ) (broker : GRPCBroker)
        (s : GrpcServer σ),
      (p.GRPCServer broker s).2 = none ∧
      (p.GRPCServer broker s).1.preCreateHandlers
        = s.preCreateHandlers ++ [{ Impl := p.Impl }]) ∧
    (∀ (σ τ : Type) (p : PreCreateGRPCPlugin σ) (ctx : Context)
        (broker : GRPCBroker) (c : ClientConn τ),
      (p.GRPCClient ctx broker c).2 = none ∧
      ((p.GRPCClient ctx broker c).1).client = c.preCreate) ∧
    (∀ (σ : Type) (p : PostCreateGRPCPlugin σ) (broker : GRPCBroker)
        (s : GrpcServer σ),
      (p.GRPCServer broker s).2 = none ∧
      (p.GRPCServer broker s).1.postCreateHandlers
        = s.postCreateHandlers ++ [{ Impl := p.Impl }]) ∧
    (∀ (σ τ : Type) (p : PostCreateGRPCPlugin σ) (ctx : Context)
        (broker : GRPCBroker) (c : ClientConn τ),
      (p.GRPCClient ctx broker c).2 = none ∧
      ((p.GRPCClient ctx broker c).1).client = c.postCreate) ∧
    (∀ (σ : Type) (p : PreDeleteGRPCPlugin σ) (broker : GRPCBroker)
        (s : GrpcServer σ),
      (p.GRPCServer broker s).2 = none ∧
      (p.GRPCServer broker s).1.preDeleteHandlers
        = s.preDeleteHandlers ++ [{ Impl := p.Impl }]) ∧
    (∀ (σ τ : Type) (p : PreDeleteGRPCPlugin σ) (ctx : Context)
        (broker : GRPCBroker) (c : ClientConn τ),
      (p.GRPCClient ctx broker c).2 = none ∧
      ((p.GRPCClient ctx broker c).1).client = c.preDelete) ∧
    (∀ (σ : Type) (p : PostDeleteGRPCPlugin σ) (broker : GRPCBroker)
        (s : GrpcServer σ),
      (p.GRPCServer broker s).2 = none ∧
      (p.GRPCServer broker s).1.postDeleteHandlers
        = s.postDeleteHandlers ++ [{ Impl := p.Impl }]) ∧
    (∀ (σ τ : Type) (p : PostDeleteGRPCPlugin σ) (ctx : Context)
        (broker : GRPCBroker) (c : ClientConn τ),
      (p.GRPCClient ctx broker c).2 = none ∧
      ((p.GRPCClient ctx broker c).1).client = c.postDelete) :=
  ⟨fun _ _ _ _ => ⟨rfl, rfl⟩, fun _ _ _ _ _ _ => ⟨rfl, rfl⟩,
   fun _ _ _ _ => ⟨rfl, rfl⟩, fun _ _ _ _ _ _ => ⟨rfl, rfl⟩,
   fun _ _ _ _ => ⟨rfl, rfl⟩, fun _ _ _ _ _ _ => ⟨rfl, rfl⟩,
   fun _ _ _ _ => ⟨rfl, rfl⟩, fun _ _ _ _ _ _ => ⟨rfl, rfl⟩⟩
